import Mathlib

/-
  Verification development for the Perceptual-Video-Enhancer repository.

  The shader chain, processor lifecycle, detector-side session management
  and background fan-out are shallowly embedded below, transcribed from
  src/content/video-processor.js, the detector content script, and
  src/background.js.  GLSL floats are modelled as rationals; the
  transcendental functions the shaders use (sin, exp, sqrt) are supplied
  as an explicit parameter record, since the properties of interest do not
  depend on their values.
-/

namespace PVE

/-! ## GLSL value model -/

/-- A two-component vector of rationals, modelling GLSL vec2. -/
structure Vec2 where
  x : ℚ
  y : ℚ
deriving DecidableEq

/-- A three-component color vector of rationals, modelling GLSL vec3. -/
@[ext]
structure Vec3 where
  r : ℚ
  g : ℚ
  b : ℚ
deriving DecidableEq

instance : Add Vec2 := ⟨fun a c => ⟨a.x + c.x, a.y + c.y⟩⟩

instance : Add Vec3 := ⟨fun a c => ⟨a.r + c.r, a.g + c.g, a.b + c.b⟩⟩

instance : Sub Vec3 := ⟨fun a c => ⟨a.r - c.r, a.g - c.g, a.b - c.b⟩⟩

/-- Componentwise scaling of a vec3 by a scalar. -/
def Vec3.scale (v : Vec3) (k : ℚ) : Vec3 := ⟨v.r * k, v.g * k, v.b * k⟩

/-- GLSL `color += n` for scalar n: the scalar is added to each channel. -/
def Vec3.addScalar (v : Vec3) (n : ℚ) : Vec3 := ⟨v.r + n, v.g + n, v.b + n⟩

/-- Componentwise product of two vec2 values (GLSL `uv * res`). -/
def Vec2.mulV (a c : Vec2) : Vec2 := ⟨a.x * c.x, a.y * c.y⟩

/-- GLSL `uv + s` for scalar s: added to both components. -/
def Vec2.addScalar (v : Vec2) (s : ℚ) : Vec2 := ⟨v.x + s, v.y + s⟩

/-- GLSL dot on vec2. -/
def dot2 (a c : Vec2) : ℚ := a.x * c.x + a.y * c.y

/-- GLSL dot on vec3. -/
def dot3 (a c : Vec3) : ℚ := a.r * c.r + a.g * c.g + a.b * c.b

/-- GLSL fract: fractional part. -/
def fract (q : ℚ) : ℚ := q - ⌊q⌋

/-- GLSL clamp(x, lo, hi) = min(max(x, lo), hi). -/
def clampQ (q lo hi : ℚ) : ℚ := min (max q lo) hi

/-- GLSL clamp(color, 0.0, 1.0), componentwise. -/
def clamp01V (c : Vec3) : Vec3 := ⟨clampQ c.r 0 1, clampQ c.g 0 1, clampQ c.b 0 1⟩

/-- GLSL mix(x, y, a) on scalars applied componentwise to vec3. -/
def mixV (a c : Vec3) (t : ℚ) : Vec3 := a.scale (1 - t) + c.scale t

/-- The transcendental functions the fragment shader uses, supplied as
parameters of the embedding (their exact float values are irrelevant to
every property proved below). -/
structure MathOps where
  sinF : ℚ → ℚ
  expF : ℚ → ℚ
  sqrtF : ℚ → ℚ

/-- GLSL length on vec3, via the supplied square root. -/
def glLength (M : MathOps) (v : Vec3) : ℚ := M.sqrtF (dot3 v v)

/-- Predicate: every channel of the color lies in the interval 0 to 1. -/
def inRange01 (c : Vec3) : Prop :=
  (0 ≤ c.r ∧ c.r ≤ 1) ∧ (0 ≤ c.g ∧ c.g ≤ 1) ∧ (0 ≤ c.b ∧ c.b ≤ 1)

instance (c : Vec3) : Decidable (inRange01 c) := by
  unfold inRange01; infer_instance

/-! ## Fragment shader (src/content/video-processor.js, lines 103-207) -/

/-- The shader uniforms bound each tick. -/
structure Uniforms where
  resolution : Vec2
  debanding : ℚ
  smoothing : ℚ
  sharpening : ℚ
  time : ℚ

/-- Pseudo-random for blue-noise approximation:
`fract(sin(dot(co.xy, vec2(12.9898, 78.233))) * 43758.5453)`. -/
def rand (M : MathOps) (co : Vec2) : ℚ :=
  fract (M.sinF (dot2 co ⟨12.9898, 78.233⟩) * 43758.5453)

/-- Blue-noise-like dithering pattern: `(rand(uv + u_time * 0.01) - 0.5) * 2.0`. -/
def blueNoise (M : MathOps) (time : ℚ) (uv : Vec2) : ℚ :=
  (rand M (uv.addScalar (time * 0.01)) - 0.5) * 2

/-- Luminance: `dot(color, vec3(0.299, 0.587, 0.114))`. -/
def getLuma (color : Vec3) : ℚ := dot3 color ⟨0.299, 0.587, 0.114⟩

/-- The eight neighbor offsets visited by smoothPixel, in source loop
order (x outer from -1 to 1, y inner, center skipped). -/
def neighborOffsets8 : List (ℚ × ℚ) :=
  [(-1, -1), (-1, 0), (-1, 1), (0, -1), (0, 1), (1, -1), (1, 0), (1, 1)]

/-- Bilateral-ish smoothing for block artifacts (`smoothPixel`): weighted
average of the center color with the eight raw texture neighbors, weights
`exp(-|lumaDiff| * 10) * 0.5`, self-weight 1. -/
def smoothPixel (M : MathOps) (tex : Vec2 → Vec3) (res : Vec2)
    (uv : Vec2) (centerColor : Vec3) : Vec3 :=
  let texelSize : Vec2 := ⟨1 / res.x, 1 / res.y⟩
  let centerLuma := getLuma centerColor
  let acc := neighborOffsets8.foldl
    (fun (acc : Vec3 × ℚ) (o : ℚ × ℚ) =>
      let offset : Vec2 := ⟨o.1 * texelSize.x, o.2 * texelSize.y⟩
      let sampleColor := tex (uv + offset)
      let sampleLuma := getLuma sampleColor
      let lumaDiff := |centerLuma - sampleLuma|
      let weight := M.expF (-lumaDiff * 10) * 0.5
      (acc.1 + sampleColor.scale weight, acc.2 + weight))
    (centerColor, 1)
  acc.1.scale (1 / acc.2)

/-- The adaptive damping factor of the sharpening stage:
`1.0 - min(edgeStrength * 2.0, 0.5)`. -/
def adaptiveFactor (edgeStrength : ℚ) : ℚ := 1 - min (edgeStrength * 2) 0.5

/-- Contrast-adaptive sharpening (`sharpen`): unsharp mask against the
4-neighbor average of the raw texture, damped by the adaptive factor. -/
def sharpen (M : MathOps) (tex : Vec2 → Vec3) (res : Vec2) (sharpening : ℚ)
    (uv : Vec2) (color : Vec3) : Vec3 :=
  let texelSize : Vec2 := ⟨1 / res.x, 1 / res.y⟩
  let up := tex ⟨uv.x, uv.y - texelSize.y⟩
  let down := tex ⟨uv.x, uv.y + texelSize.y⟩
  let left := tex ⟨uv.x - texelSize.x, uv.y⟩
  let right := tex ⟨uv.x + texelSize.x, uv.y⟩
  let neighbors := (up + down + left + right).scale 0.25
  let sharpened := color + (color - neighbors).scale sharpening
  let edgeStrength := glLength M (color - neighbors)
  let adaptive := adaptiveFactor edgeStrength
  mixV color sharpened adaptive

/-- The fragment shader main: gated debanding, then gated smoothing, then
gated sharpening, then clamp to 0..1, transcribed line by line from
video-processor.js lines 181-206. -/
def fragMain (M : MathOps) (u : Uniforms) (tex : Vec2 → Vec3) (uv : Vec2) : Vec3 :=
  let texColor := tex uv
  let color0 := texColor
  let color1 :=
    if 0 < u.debanding then
      color0.addScalar (blueNoise M u.time (uv.mulV u.resolution) * u.debanding * 0.02)
    else color0
  let color2 :=
    if 0 < u.smoothing then
      mixV color1 (smoothPixel M tex u.resolution uv color1) (u.smoothing * 0.5)
    else color1
  let color3 :=
    if 0 < u.sharpening then sharpen M tex u.resolution u.sharpening uv color2
    else color2
  clamp01V color3

/-- Step 1 of main in isolation: debanding with blue-noise dithering,
acting on the running color value. -/
def debandingStage (M : MathOps) (u : Uniforms) (uv : Vec2) (c : Vec3) : Vec3 :=
  if 0 < u.debanding then
    c.addScalar (blueNoise M u.time (uv.mulV u.resolution) * u.debanding * 0.02)
  else c

/-- Step 2 of main in isolation: gentle smoothing, blending the running
color value with the raw-texture neighborhood average. -/
def smoothingStage (M : MathOps) (u : Uniforms) (tex : Vec2 → Vec3)
    (uv : Vec2) (c : Vec3) : Vec3 :=
  if 0 < u.smoothing then mixV c (smoothPixel M tex u.resolution uv c) (u.smoothing * 0.5)
  else c

/-- Step 3 of main in isolation: contrast-adaptive sharpening applied to
the running color value. -/
def sharpeningStage (M : MathOps) (u : Uniforms) (tex : Vec2 → Vec3)
    (uv : Vec2) (c : Vec3) : Vec3 :=
  if 0 < u.sharpening then sharpen M tex u.resolution u.sharpening uv c
  else c

/-! ## Processor state machine (src/content/video-processor.js, lines 295-382) -/

/-- A preset object as received by setPreset: each intensity field may be
absent or undefined (modelled as none) or carry a number. -/
structure PresetVals where
  debanding : Option ℚ
  smoothing : Option ℚ
  sharpening : Option ℚ
deriving DecidableEq

/-- JS `v || 0` on a possibly-missing numeric field: absent, undefined and
the number 0 are all falsy and yield 0. -/
def jsOrZero (o : Option ℚ) : ℚ :=
  match o with
  | none => 0
  | some v => if v = 0 then 0 else v

/-- A possibly-missing numeric field is falsy when it is absent or 0. -/
def falsyNum (o : Option ℚ) : Prop := o = none ∨ o = some 0

instance (o : Option ℚ) : Decidable (falsyNum o) := by
  unfold falsyNum; infer_instance

/-- The names of the uniforms processFrame binds. -/
inductive UniformName where
  | u_resolution
  | u_debanding
  | u_smoothing
  | u_sharpening
  | u_time
deriving DecidableEq

/-- One GPU call issued from within processFrame. -/
inductive GpuOp where
  | viewport (w h : Nat)
  | bindTexture
  | texImage2D
  | uniform2f (name : UniformName) (x y : ℚ)
  | uniform1f (name : UniformName) (v : ℚ)
  | drawArrays
deriving DecidableEq

/-- The mutable fields of a VideoProcessor instance relevant to the render
loop: `isProcessing`, the pending animation-frame callback count (the
single animationId slot), the canvas size, resource liveness, and the
current preset. -/
structure ProcState where
  isProcessing : Bool
  scheduledTicks : Nat
  canvasW : Nat
  canvasH : Nat
  glAlive : Bool
  textureAlive : Bool
  programAlive : Bool
  canvasAttached : Bool
  preset : PresetVals
deriving DecidableEq

/-- The per-tick inputs read from the video element and the clock. -/
structure TickEnv where
  videoWidth : Nat
  videoHeight : Nat
  videoReady : Bool
  nowMs : ℚ
deriving DecidableEq

/-- The lazy canvas resize block of processFrame (lines 335-339): resize
the canvas and update the viewport only when the canvas dimensions no
longer match the video (JS `videoWidth || 1920`, `videoHeight || 1080`). -/
def resizeStep (s : ProcState) (env : TickEnv) : ProcState × List GpuOp :=
  if s.canvasW ≠ env.videoWidth ∨ s.canvasH ≠ env.videoHeight then
    ({ s with canvasW := if env.videoWidth = 0 then 1920 else env.videoWidth,
              canvasH := if env.videoHeight = 0 then 1080 else env.videoHeight },
     [GpuOp.viewport (if env.videoWidth = 0 then 1920 else env.videoWidth)
                     (if env.videoHeight = 0 then 1080 else env.videoHeight)])
  else (s, [])

/-- The upload-and-draw block of processFrame (lines 342-355): when the
video has a decoded frame, upload it, bind the uniforms (each intensity
read as `preset.field || 0`, the time as `performance.now() * 0.001`)
and draw the quad; otherwise skip entirely. -/
def uploadDrawOps (canvasW canvasH : Nat) (p : PresetVals) (env : TickEnv) : List GpuOp :=
  if env.videoReady then
    [GpuOp.bindTexture, GpuOp.texImage2D,
     GpuOp.uniform2f UniformName.u_resolution canvasW canvasH,
     GpuOp.uniform1f UniformName.u_debanding (jsOrZero p.debanding),
     GpuOp.uniform1f UniformName.u_smoothing (jsOrZero p.smoothing),
     GpuOp.uniform1f UniformName.u_sharpening (jsOrZero p.sharpening),
     GpuOp.uniform1f UniformName.u_time (env.nowMs * 0.001),
     GpuOp.drawArrays]
  else []

/-- processFrame (lines 328-359): early return when not processing; lazy
resize; gated upload, uniform binding and draw; finally schedule the
next tick. -/
def processFrame (s : ProcState) (env : TickEnv) : ProcState × List GpuOp :=
  if s.isProcessing = false then (s, [])
  else
    let s1 := (resizeStep s env).1
    ({ s1 with scheduledTicks := s1.scheduledTicks + 1 },
     (resizeStep s env).2 ++ uploadDrawOps s1.canvasW s1.canvasH s.preset env)

/-- setPreset (lines 298-300): replace the preset wholesale. -/
def setPresetP (s : ProcState) (p : PresetVals) : ProcState := { s with preset := p }

/-- start (lines 305-311): early return when already processing, else set
the flag and invoke processFrame synchronously. -/
def startP (s : ProcState) (env : TickEnv) : ProcState × List GpuOp :=
  if s.isProcessing then (s, [])
  else processFrame { s with isProcessing := true } env

/-- stop (lines 316-323): clear the flag and cancel the pending
animation-frame callback held in the single animationId slot. -/
def stopP (s : ProcState) : ProcState :=
  { s with isProcessing := false, scheduledTicks := s.scheduledTicks - 1 }

/-- destroy (lines 364-382): stop, remove the canvas from the document,
delete the texture and program, null the handles. -/
def destroyP (s : ProcState) : ProcState :=
  { stopP s with
    canvasAttached := false, glAlive := false,
    textureAlive := false, programAlive := false }

/-- The host firing one scheduled animation-frame callback: the callback
is consumed, then processFrame runs. -/
def fireTick (s : ProcState) (env : TickEnv) : ProcState × List GpuOp :=
  processFrame { s with scheduledTicks := s.scheduledTicks - 1 } env

/-- Scheduling sanity invariant of a session: at most one pending tick
callback, and none once the loop is stopped. -/
def SessionInv (s : ProcState) : Prop :=
  s.scheduledTicks ≤ 1 ∧ (s.isProcessing = false → s.scheduledTicks = 0)

instance (s : ProcState) : Decidable (SessionInv s) := by
  unfold SessionInv; infer_instance

/-! ## Detector-side lifecycle (content script enableProcessing and init) -/

/-- The environment a session-creation attempt runs against: whether the
WebGL context is obtainable, and whether each shader build step succeeds. -/
structure InitEnv where
  webglSupported : Bool
  vertexCompiles : Bool
  fragmentCompiles : Bool
  programLinks : Bool
deriving DecidableEq

/-- Per-source page state seen by the detector: the processedVideos entry
(present or not, DRM flag, bound processor), whether the overlay canvas is
attached to the document, and GPU resource creation counters. -/
structure PageVideoState where
  infoPresent : Bool
  drm : Bool
  hasProcessor : Bool
  processorRunning : Bool
  overlayAttached : Bool
  programsCreated : Nat
  texturesCreated : Nat
deriving DecidableEq

/-- VideoProcessor.init (lines 24-64): create and insert the overlay
canvas, acquire the WebGL context, compile and link the shaders, create
the texture.  A thrown error leaves every mutation made so far in place;
the Bool reports success. -/
def initVP (env : InitEnv) (s : PageVideoState) : PageVideoState × Bool :=
  let s1 := { s with overlayAttached := true }
  if env.webglSupported = false then (s1, false)
  else if env.vertexCompiles = false then (s1, false)
  else if env.fragmentCompiles = false then (s1, false)
  else
    let s2 := { s1 with programsCreated := s1.programsCreated + 1 }
    if env.programLinks = false then (s2, false)
    else ({ s2 with texturesCreated := s2.texturesCreated + 1 }, true)

/-- enableProcessing (detector script): early return when there is no
info entry, the source is DRM, or a processor is already bound; otherwise
construct and init a processor inside try/catch, bind and start it on
success, and on failure only log (the catch block performs no cleanup). -/
def enableProcessing (env : InitEnv) (s : PageVideoState) : PageVideoState :=
  if s.infoPresent = false ∨ s.drm = true ∨ s.hasProcessor = true then s
  else
    let r := initVP env s
    if r.2 then { r.1 with hasProcessor := true, processorRunning := true }
    else r.1

/-! ## Background fan-out (src/background.js, lines 93-104) -/

/-- One entry of tabs.query: the tab id may be absent, and delivery to the
tab may fail (no content script loaded). -/
structure Tab where
  id : Option Nat
  reachable : Bool
deriving DecidableEq

/-- chrome.tabs.sendMessage: fails when the tab has no listener. -/
def sendMessageTo (t : Tab) : Except Unit Unit :=
  if t.reachable then Except.ok () else Except.error ()

/-- notifyAllTabs: loop over every tab, attempt delivery to each tab that
has an id, catch and ignore per-tab failures, never abort the loop.
Returns the attempted deliveries as (tab id, delivered) pairs. -/
def notifyAllTabs : List Tab → List (Nat × Bool)
  | [] => []
  | t :: rest =>
    match t.id with
    | none => notifyAllTabs rest
    | some i =>
      match sendMessageTo t with
      | Except.ok _ => (i, true) :: notifyAllTabs rest
      | Except.error _ => (i, false) :: notifyAllTabs rest

/-! ## Helper lemmas -/

theorem clampQ01_nonneg (x : ℚ) : 0 ≤ clampQ x 0 1 :=
  le_min (le_max_right x 0) zero_le_one

theorem clampQ01_le_one (x : ℚ) : clampQ x 0 1 ≤ 1 :=
  min_le_right _ _

theorem clampQ_id (x : ℚ) (h0 : 0 ≤ x) (h1 : x ≤ 1) : clampQ x 0 1 = x := by
  unfold clampQ
  rw [max_eq_left h0, min_eq_left h1]

theorem clamp01V_eq_self (c : Vec3) (h : inRange01 c) : clamp01V c = c := by
  obtain ⟨⟨h1, h2⟩, ⟨h3, h4⟩, ⟨h5, h6⟩⟩ := h
  unfold clamp01V
  ext
  · exact clampQ_id _ h1 h2
  · exact clampQ_id _ h3 h4
  · exact clampQ_id _ h5 h6

theorem inRange01_clamp01V (c : Vec3) : inRange01 (clamp01V c) :=
  ⟨⟨clampQ01_nonneg _, clampQ01_le_one _⟩,
   ⟨clampQ01_nonneg _, clampQ01_le_one _⟩,
   ⟨clampQ01_nonneg _, clampQ01_le_one _⟩⟩

/-! ## Shader chain claims -/

/-- C2: with debanding = smoothing = sharpening = 0 every stage gate
fails, so the chain is the identity on any in-range input color, and the
output does not depend on the transcendental functions or on the time
uniform (the noise path is short-circuited, not evaluated with a zero
coefficient). -/
theorem shaderChain_zero_intensity_identity (M : MathOps) (u : Uniforms)
    (tex : Vec2 → Vec3) (uv : Vec2)
    (hd : u.debanding = 0) (hs : u.smoothing = 0) (hsh : u.sharpening = 0)
    (hin : inRange01 (tex uv)) :
    fragMain M u tex uv = tex uv ∧
      ∀ M2 : MathOps, ∀ t2 : ℚ,
        fragMain M u tex uv = fragMain M2 { u with time := t2 } tex uv := by
  constructor
  · show fragMain M u tex uv = tex uv
    simp only [fragMain, hd, hs, hsh, lt_self_iff_false, if_false]
    exact clamp01V_eq_self _ hin
  · intro M2 t2
    simp only [fragMain, hd, hs, hsh, lt_self_iff_false, if_false]

/-- Closed instance of the zero-intensity identity at a concrete input. -/
theorem shaderChain_zero_intensity_identity_witness :
    fragMain ⟨fun q => q, fun q => q, fun q => q⟩ ⟨⟨1920, 1080⟩, 0, 0, 0, 5⟩
      (fun _ => ⟨0, 1, 1⟩) ⟨0, 0⟩ = ⟨0, 1, 1⟩ :=
  (shaderChain_zero_intensity_identity ⟨fun q => q, fun q => q, fun q => q⟩
    ⟨⟨1920, 1080⟩, 0, 0, 0, 5⟩ (fun _ => ⟨0, 1, 1⟩) ⟨0, 0⟩
    rfl rfl rfl (by decide)).1

/-- C4: the shader chain applies the stages in the fixed order debanding,
then smoothing, then sharpening, then the clamp: smoothing receives the
debanded running value as its center color, and sharpening receives the
debanded-and-smoothed running value (not the raw texture color). -/
theorem shaderChain_stage_order (M : MathOps) (u : Uniforms)
    (tex : Vec2 → Vec3) (uv : Vec2) :
    fragMain M u tex uv =
      clamp01V (sharpeningStage M u tex uv
        (smoothingStage M u tex uv
          (debandingStage M u uv (tex uv)))) := rfl

/-- C5: the sharpening stage mixing factor 1 - min(edgeStrength * 2, 0.5)
is at least one half for every center color and 4-neighbor average,
whatever edge strength the length function reports. -/
theorem sharpening_adaptive_factor_ge_half (M : MathOps) (c n : Vec3) :
    1 / 2 ≤ adaptiveFactor (glLength M (c - n)) := by
  unfold adaptiveFactor
  have h : min (glLength M (c - n) * 2) (0.5 : ℚ) ≤ (0.5 : ℚ) := min_le_right _ _
  have h05 : (0.5 : ℚ) = 1 / 2 := by norm_num
  rw [h05] at h ⊢
  linarith

/-- C6: for every input frame, intensities and math functions, every
channel of the shader chain output lies in the interval 0 to 1, because
the chain clamps channel-wise as its last step. -/
theorem shaderChain_output_in_unit_range (M : MathOps) (u : Uniforms)
    (tex : Vec2 → Vec3) (uv : Vec2) :
    inRange01 (fragMain M u tex uv) := by
  simp only [fragMain]
  exact inRange01_clamp01V _

/-! ## Render-loop lifecycle claims -/

theorem resizeStep_pres (s : ProcState) (env : TickEnv) :
    (resizeStep s env).1.isProcessing = s.isProcessing ∧
    (resizeStep s env).1.scheduledTicks = s.scheduledTicks ∧
    (resizeStep s env).1.textureAlive = s.textureAlive ∧
    (resizeStep s env).1.programAlive = s.programAlive ∧
    (resizeStep s env).1.glAlive = s.glAlive := by
  unfold resizeStep
  split <;> exact ⟨rfl, rfl, rfl, rfl, rfl⟩

theorem processFrame_not_processing (s : ProcState) (env : TickEnv)
    (h : s.isProcessing = false) : processFrame s env = (s, []) := by
  unfold processFrame
  rw [if_pos h]

theorem processFrame_keeps_flag (s : ProcState) (env : TickEnv) :
    (processFrame s env).1.isProcessing = s.isProcessing := by
  unfold processFrame
  split
  · rfl
  · exact (resizeStep_pres s env).1

theorem processFrame_sched (s : ProcState) (env : TickEnv)
    (h : s.isProcessing = true) :
    (processFrame s env).1.scheduledTicks = s.scheduledTicks + 1 := by
  unfold processFrame
  rw [if_neg (by simp [h])]
  show (resizeStep s env).1.scheduledTicks + 1 = s.scheduledTicks + 1
  rw [(resizeStep_pres s env).2.1]

/-- C3: a tick callback that begins executing after stop() or destroy()
sees the cleared isProcessing flag at its top and returns without issuing
any GPU call and without touching the freed texture and program; stop and
destroy clear the flag synchronously and cancel the pending callback. -/
theorem tick_after_stop_or_destroy_no_gpu_work (s : ProcState) (env : TickEnv)
    (hsched : s.scheduledTicks ≤ 1) :
    (fireTick (stopP s) env).2 = [] ∧
    (fireTick (destroyP s) env).2 = [] ∧
    (stopP s).isProcessing = false ∧
    (destroyP s).isProcessing = false ∧
    (stopP s).scheduledTicks = 0 ∧
    (destroyP s).scheduledTicks = 0 ∧
    (fireTick (destroyP s) env).1.textureAlive = false ∧
    (fireTick (destroyP s) env).1.programAlive = false ∧
    (fireTick (destroyP s) env).1.glAlive = false := by
  have h1 : (stopP s).isProcessing = false := rfl
  have h2 : (destroyP s).isProcessing = false := rfl
  have e1 : fireTick (stopP s) env =
      ({ stopP s with scheduledTicks := (stopP s).scheduledTicks - 1 }, []) := by
    unfold fireTick
    exact processFrame_not_processing _ _ rfl
  have e2 : fireTick (destroyP s) env =
      ({ destroyP s with scheduledTicks := (destroyP s).scheduledTicks - 1 }, []) := by
    unfold fireTick
    exact processFrame_not_processing _ _ rfl
  refine ⟨by rw [e1], by rw [e2], h1, h2, ?_, ?_,
    by rw [e2]; rfl, by rw [e2]; rfl, by rw [e2]; rfl⟩
  · simp [stopP]; omega
  · simp [destroyP, stopP]; omega

/-- Closed instance of the post-destroy tick behaviour at a concrete
session state. -/
theorem tick_after_stop_or_destroy_no_gpu_work_witness :
    (fireTick (destroyP ⟨true, 1, 640, 360, true, true, true, true,
        ⟨some 1, some 1, some 1⟩⟩) ⟨640, 360, true, 100⟩).2 = [] ∧
    (stopP ⟨true, 1, 640, 360, true, true, true, true,
        ⟨some 1, some 1, some 1⟩⟩).scheduledTicks = 0 :=
  ⟨(tick_after_stop_or_destroy_no_gpu_work
      ⟨true, 1, 640, 360, true, true, true, true, ⟨some 1, some 1, some 1⟩⟩
      ⟨640, 360, true, 100⟩ (by decide)).2.1,
   (tick_after_stop_or_destroy_no_gpu_work
      ⟨true, 1, 640, 360, true, true, true, true, ⟨some 1, some 1, some 1⟩⟩
      ⟨640, 360, true, 100⟩ (by decide)).2.2.2.2.1⟩

/-- C10: start() on a session that is already running returns at once,
leaving the state unchanged (flag stays true) and issuing nothing, so no
second tick chain begins; and every lifecycle operation preserves the
invariant that at most one tick callback is pending, none once stopped. -/
theorem start_noop_when_running (s : ProcState) (env : TickEnv)
    (h : s.isProcessing = true) :
    startP s env = (s, []) ∧
    (∀ s2 : ProcState, SessionInv s2 →
      SessionInv (startP s2 env).1 ∧ SessionInv (fireTick s2 env).1 ∧
      SessionInv (stopP s2) ∧ SessionInv (destroyP s2)) := by
  constructor
  · unfold startP
    simp [h]
  · intro s2 hinv
    obtain ⟨hle, hstop⟩ := hinv
    refine ⟨?_, ?_, ?_, ?_⟩
    · unfold startP
      rcases hp : s2.isProcessing with _ | _
      · have h0 : s2.scheduledTicks = 0 := hstop hp
        simp only [hp, if_false, Bool.false_eq_true]
        constructor
        · rw [processFrame_sched _ _ rfl]
          simp [h0]
        · intro hcontra
          rw [processFrame_keeps_flag] at hcontra
          simp at hcontra
      · simp only [hp, if_true]
        exact ⟨hle, hstop⟩
    · unfold fireTick
      rcases hp : s2.isProcessing with _ | _
      · have h0 : s2.scheduledTicks = 0 := hstop hp
        rw [processFrame_not_processing _ _ (by simp [hp])]
        exact ⟨by simp; omega, fun _ => by simp; omega⟩
      · constructor
        · rw [processFrame_sched _ _ (by simp [hp])]
          simp
          omega
        · intro hcontra
          rw [processFrame_keeps_flag] at hcontra
          simp [hp] at hcontra
    · exact ⟨by simp [stopP]; omega, fun _ => by simp [stopP]; omega⟩
    · exact ⟨by simp [destroyP, stopP]; omega, fun _ => by simp [destroyP, stopP]; omega⟩

/-- Closed instance of the running-start no-op at a concrete session. -/
theorem start_noop_when_running_witness :
    startP ⟨true, 1, 640, 360, true, true, true, true, ⟨some 1, none, none⟩⟩
        ⟨640, 360, true, 100⟩ =
      (⟨true, 1, 640, 360, true, true, true, true, ⟨some 1, none, none⟩⟩, []) :=
  (start_noop_when_running
    ⟨true, 1, 640, 360, true, true, true, true, ⟨some 1, none, none⟩⟩
    ⟨640, 360, true, 100⟩ rfl).1

/-- C9: a preset intensity field that is absent or 0 is bound as the
uniform value 0 by the next tick after setPreset (JS `field || 0`), and a
stage whose uniform is 0 is skipped entirely by the shader, so a partial
preset activates no unintended stage. -/
theorem partial_preset_treated_as_zero (s : ProcState) (p : PresetVals) (env : TickEnv)
    (hrun : s.isProcessing = true) (hready : env.videoReady = true) :
    (GpuOp.uniform1f UniformName.u_debanding (jsOrZero p.debanding)
        ∈ (processFrame (setPresetP s p) env).2) ∧
    (GpuOp.uniform1f UniformName.u_smoothing (jsOrZero p.smoothing)
        ∈ (processFrame (setPresetP s p) env).2) ∧
    (GpuOp.uniform1f UniformName.u_sharpening (jsOrZero p.sharpening)
        ∈ (processFrame (setPresetP s p) env).2) ∧
    (falsyNum p.debanding → jsOrZero p.debanding = 0) ∧
    (falsyNum p.smoothing → jsOrZero p.smoothing = 0) ∧
    (falsyNum p.sharpening → jsOrZero p.sharpening = 0) ∧
    (∀ (M : MathOps) (u : Uniforms) (uv : Vec2) (c : Vec3),
        u.debanding = 0 → debandingStage M u uv c = c) ∧
    (∀ (M : MathOps) (u : Uniforms) (tex : Vec2 → Vec3) (uv : Vec2) (c : Vec3),
        u.smoothing = 0 → smoothingStage M u tex uv c = c) ∧
    (∀ (M : MathOps) (u : Uniforms) (tex : Vec2 → Vec3) (uv : Vec2) (c : Vec3),
        u.sharpening = 0 → sharpeningStage M u tex uv c = c) := by
  have hops : (processFrame (setPresetP s p) env).2 =
      (resizeStep (setPresetP s p) env).2 ++
        uploadDrawOps ((resizeStep (setPresetP s p) env).1.canvasW)
          ((resizeStep (setPresetP s p) env).1.canvasH) p env := by
    unfold processFrame
    rw [if_neg (by simp [setPresetP, hrun])]
    rfl
  refine ⟨?_, ?_, ?_, ?_, ?_, ?_, ?_, ?_, ?_⟩
  · rw [hops]
    exact List.mem_append_right _ (by simp [uploadDrawOps, hready])
  · rw [hops]
    exact List.mem_append_right _ (by simp [uploadDrawOps, hready])
  · rw [hops]
    exact List.mem_append_right _ (by simp [uploadDrawOps, hready])
  · rintro (h | h) <;> simp [jsOrZero, h]
  · rintro (h | h) <;> simp [jsOrZero, h]
  · rintro (h | h) <;> simp [jsOrZero, h]
  · intro M u uv c h
    simp [debandingStage, h]
  · intro M u tex uv c h
    simp [smoothingStage, h]
  · intro M u tex uv c h
    simp [sharpeningStage, h]

/-- Closed instance: a preset with absent debanding and zero smoothing is
bound as uniform value 0 on the next tick. -/
theorem partial_preset_treated_as_zero_witness :
    (GpuOp.uniform1f UniformName.u_debanding (jsOrZero (none : Option ℚ))
        ∈ (processFrame (setPresetP
            ⟨true, 1, 640, 360, true, true, true, true, ⟨some 1, some 1, some 1⟩⟩
            ⟨none, some 0, none⟩) ⟨640, 360, true, 100⟩).2) ∧
    jsOrZero (none : Option ℚ) = 0 ∧ jsOrZero (some (0 : ℚ)) = 0 :=
  ⟨(partial_preset_treated_as_zero
      ⟨true, 1, 640, 360, true, true, true, true, ⟨some 1, some 1, some 1⟩⟩
      ⟨none, some 0, none⟩ ⟨640, 360, true, 100⟩ rfl rfl).1,
   (partial_preset_treated_as_zero
      ⟨true, 1, 640, 360, true, true, true, true, ⟨some 1, some 1, some 1⟩⟩
      ⟨none, some 0, none⟩ ⟨640, 360, true, 100⟩ rfl rfl).2.2.2.1 (Or.inl rfl),
   (partial_preset_treated_as_zero
      ⟨true, 1, 640, 360, true, true, true, true, ⟨some 1, some 1, some 1⟩⟩
      ⟨none, some 0, none⟩ ⟨640, 360, true, 100⟩ rfl rfl).2.2.2.2.1 (Or.inr rfl)⟩

/-! ## Detector lifecycle claims -/

theorem enableProcessing_noop_when_bound (env : InitEnv) (s : PageVideoState)
    (h : s.hasProcessor = true) : enableProcessing env s = s := by
  unfold enableProcessing
  rw [if_pos (Or.inr (Or.inr h))]

/-- C7: a successful create() on an unbound, non-DRM source binds a
processor and allocates exactly one program and one texture; a second
create() on the now-bound source is a no-op that leaves the state (and
hence the existing session and the resource counters) unchanged, and in
general create() on any bound source changes nothing. -/
theorem create_idempotent_on_bound_source (env env2 : InitEnv) (s : PageVideoState)
    (hinfo : s.infoPresent = true) (hdrm : s.drm = false) (hfree : s.hasProcessor = false)
    (hgl : env.webglSupported = true) (hv : env.vertexCompiles = true)
    (hf : env.fragmentCompiles = true) (hl : env.programLinks = true) :
    (enableProcessing env s).hasProcessor = true ∧
    (enableProcessing env s).programsCreated = s.programsCreated + 1 ∧
    (enableProcessing env s).texturesCreated = s.texturesCreated + 1 ∧
    enableProcessing env2 (enableProcessing env s) = enableProcessing env s ∧
    (∀ s2 : PageVideoState, s2.hasProcessor = true → enableProcessing env2 s2 = s2) := by
  have h1 : (enableProcessing env s).hasProcessor = true := by
    simp [enableProcessing, initVP, hinfo, hdrm, hfree, hgl, hv, hf, hl]
  refine ⟨h1, ?_, ?_, enableProcessing_noop_when_bound env2 _ h1,
    fun s2 h2 => enableProcessing_noop_when_bound env2 s2 h2⟩
  · simp [enableProcessing, initVP, hinfo, hdrm, hfree, hgl, hv, hf, hl]
  · simp [enableProcessing, initVP, hinfo, hdrm, hfree, hgl, hv, hf, hl]

/-- Closed instance: after one successful create the texture counter is
one, and a second create leaves the state unchanged. -/
theorem create_idempotent_on_bound_source_witness :
    (enableProcessing ⟨true, true, true, true⟩
        ⟨true, false, false, false, false, 0, 0⟩).texturesCreated = 1 ∧
    enableProcessing ⟨true, true, true, true⟩
        (enableProcessing ⟨true, true, true, true⟩
          ⟨true, false, false, false, false, 0, 0⟩) =
      enableProcessing ⟨true, true, true, true⟩
        ⟨true, false, false, false, false, 0, 0⟩ :=
  ⟨(create_idempotent_on_bound_source ⟨true, true, true, true⟩ ⟨true, true, true, true⟩
      ⟨true, false, false, false, false, 0, 0⟩
      rfl rfl rfl rfl rfl rfl rfl).2.2.1,
   (create_idempotent_on_bound_source ⟨true, true, true, true⟩ ⟨true, true, true, true⟩
      ⟨true, false, false, false, false, 0, 0⟩
      rfl rfl rfl rfl rfl rfl rfl).2.2.2.1⟩

/-- C1: evaluation of the session-creation failure path on a fresh
non-DRM source.  When WebGL context acquisition fails, and likewise when
fragment shader compilation fails, no processor is bound, nothing is
retried, but the overlay canvas inserted before the failure point stays
attached to the document: the catch block in enableProcessing performs no
cleanup, so partial state is retained, contrary to the specified
destroyed-with-no-overlay outcome. -/
theorem init_failure_leaves_overlay_attached :
    (enableProcessing ⟨false, true, true, true⟩
        ⟨true, false, false, false, false, 0, 0⟩).overlayAttached = true ∧
    (enableProcessing ⟨false, true, true, true⟩
        ⟨true, false, false, false, false, 0, 0⟩).hasProcessor = false ∧
    (enableProcessing ⟨true, true, false, true⟩
        ⟨true, false, false, false, false, 0, 0⟩).overlayAttached = true ∧
    (enableProcessing ⟨true, true, false, true⟩
        ⟨true, false, false, false, false, 0, 0⟩).hasProcessor = false :=
  ⟨rfl, rfl, rfl, rfl⟩

/-! ## Background fan-out claim -/

/-- C8: a delivery failure to one tab is caught and ignored at that tab,
and every tab after the failing one still receives its notification
attempt: the fan-out over the surrounding tabs is exactly what it would
have been, with one failed delivery recorded in between. -/
theorem notify_fanout_survives_peer_failure (pre post : List Tab) (t : Tab) (i : Nat)
    (hid : t.id = some i) (hfail : t.reachable = false) :
    notifyAllTabs (pre ++ t :: post) =
      notifyAllTabs pre ++ (i, false) :: notifyAllTabs post := by
  induction pre with
  | nil => simp [notifyAllTabs, sendMessageTo, hid, hfail]
  | cons hd tl ih =>
    cases hhd : hd.id with
    | none => simp [notifyAllTabs, hhd, ih]
    | some j =>
      cases hr : hd.reachable <;>
        simp [notifyAllTabs, sendMessageTo, hhd, hr, ih]

/-- Closed instance: with an unreachable middle tab, both surrounding
tabs are still notified. -/
theorem notify_fanout_survives_peer_failure_witness :
    notifyAllTabs [⟨some 1, true⟩, ⟨some 2, false⟩, ⟨some 3, true⟩] =
      notifyAllTabs [⟨some 1, true⟩] ++ (2, false) :: notifyAllTabs [⟨some 3, true⟩] :=
  notify_fanout_survives_peer_failure [⟨some 1, true⟩] [⟨some 3, true⟩]
    ⟨some 2, false⟩ 2 rfl rfl

end PVE
